import Mathlib

/-! Verification of the tiered conversation access-control and
participant-materialization model of the voicementor2 application.

The relational state (profiles, conversations, conversation_participants,
audio_messages, folders, folder_items) is embedded as lists of records.
Row-level-security policy expressions are embedded as Boolean predicates
over that state, translated from the SQL policy definitions in the
migration files; the `add_conversation_participants` trigger and the row
inserts it performs are embedded as explicit state-passing functions in
which a primary-key conflict (`unique_violation`) is represented by
`none`, aborting the surrounding transaction (so `none` means the whole
statement, conversation row included, is rolled back).  The client-side
recorder components are embedded by the stop behaviour their
`startRecording` functions install. -/

namespace VoiceMentor

/-- Identifiers (UUIDs in the source schema) are modelled as strings. -/
abbrev Uuid := String

/-- The role enumeration of the `role` CHECK constraints. -/
inductive Role where
  | client
  | mentor
  | training_director
  deriving DecidableEq, Repr

/-- A row of the `profiles` table. -/
structure Profile where
  id : Uuid
  role : Role
  mentor_id : Option Uuid
  director_id : Option Uuid
  full_name : String
  deriving DecidableEq, Repr

/-- A row of the `conversations` table. -/
structure Conversation where
  id : Uuid
  client_id : Uuid
  mentor_id : Uuid
  deriving DecidableEq, Repr

/-- A row of the `conversation_participants` table
(primary key `(conversation_id, user_id)`). -/
structure Participant where
  conversation_id : Uuid
  user_id : Uuid
  role : Role
  deriving DecidableEq, Repr

/-- A row of the `audio_messages` table. -/
structure AudioMessage where
  id : Uuid
  conversation_id : Uuid
  sender_id : Uuid
  audio_url : String
  duration : Nat
  text_transcript : Option String
  deriving DecidableEq, Repr

/-- A row of the `folders` table. -/
structure Folder where
  id : Uuid
  owner_id : Uuid
  name : String
  deriving DecidableEq, Repr

/-- A row of the `folder_items` table (primary key `(folder_id, message_id)`). -/
structure FolderItem where
  folder_id : Uuid
  message_id : Uuid
  deriving DecidableEq, Repr

/-- An object of the managed object store (`storage.objects`): bucket,
path split into segments, and declared owner. -/
structure StorageObject where
  bucket_id : String
  name : List String
  owner : Uuid
  deriving DecidableEq, Repr

/-- The database state relevant to the access-control model. -/
structure DB where
  profiles : List Profile
  conversations : List Conversation
  conversation_participants : List Participant
  audio_messages : List AudioMessage
  folders : List Folder
  folder_items : List FolderItem
  deriving DecidableEq, Repr

/-- Row lookup in `profiles` by primary key. -/
def lookupProfile (db : DB) (uid : Uuid) : Option Profile :=
  db.profiles.find? (fun p => p.id == uid)

/-- The SQL helper function `is_conversation_member(conv_uuid)`:
true iff a `conversation_participants` row links `auth.uid()` (here the
explicit `uid` argument) to the conversation. -/
def is_conversation_member (db : DB) (uid : Uuid) (convUuid : Uuid) : Bool :=
  db.conversation_participants.any
    (fun p => p.conversation_id == convUuid && p.user_id == uid)

/-- The final SELECT policy on `conversations`
("Users can view conversations they participate in", as rewritten by the
20250514160636 and 20250514171534 migrations): EXISTS a
`conversation_participants` row for this conversation and requester. -/
def conversationSelectCheck (db : DB) (uid cid : Uuid) : Bool :=
  db.conversation_participants.any
    (fun p => p.conversation_id == cid && p.user_id == uid)

/-- The INSERT policy on `conversations`
("Clients can create conversations with their mentor"): requester is the
client, or the mentor, or the mentor recorded on the client's profile. -/
def conversationInsertCheck (db : DB) (uid clientId mentorId : Uuid) : Bool :=
  clientId == uid
    || (mentorId == uid
        || db.profiles.any (fun p => p.id == clientId && p.mentor_id == some uid))

/-- The SELECT policy on `audio_messages`
("Conversation members can read messages"). -/
def audioMessageSelectCheck (db : DB) (uid : Uuid) (m : AudioMessage) : Bool :=
  is_conversation_member db uid m.conversation_id

/-- The INSERT policy on `audio_messages`
("Conversation members can add messages"). -/
def audioMessageInsertCheck (db : DB) (uid : Uuid) (m : AudioMessage) : Bool :=
  is_conversation_member db uid m.conversation_id && m.sender_id == uid

/-- The DELETE policy on `audio_messages`
("Senders can delete their own messages"). -/
def audioMessageDeleteCheck (uid : Uuid) (m : AudioMessage) : Bool :=
  m.sender_id == uid

/-- The WITH CHECK clause of the ALL policy on `folder_items`
("Users can manage items in their folders"): the folder is owned by the
requester, and the referenced message's conversation counts the requester
as a member. -/
def folderItemInsertCheck (db : DB) (uid : Uuid) (it : FolderItem) : Bool :=
  db.folders.any (fun f => f.id == it.folder_id && f.owner_id == uid)
    && db.audio_messages.any
        (fun m => m.id == it.message_id && is_conversation_member db uid m.conversation_id)

/-- The SQL `storage.foldername(name)`: all path segments but the last. -/
def storageFoldername (name : List String) : List String :=
  name.dropLast

/-- The SELECT policy on `storage.objects`
("Only conversation members can read audio files"): bucket is `voices`
and the first folder segment of the path names a conversation the
requester is a member of. -/
def storageObjectSelectCheck (db : DB) (uid : Uuid) (obj : StorageObject) : Bool :=
  obj.bucket_id == "voices"
    && (match (storageFoldername obj.name).head? with
        | some seg => is_conversation_member db uid seg
        | none => false)

/-- The mentor's director reference, as read by the trigger
(`SELECT p.director_id INTO director_id FROM profiles p WHERE p.id = NEW.mentor_id`). -/
def mentorDirector (db : DB) (mentorId : Uuid) : Option Uuid :=
  (lookupProfile db mentorId).bind (fun p => p.director_id)

/-- A plain `INSERT INTO conversation_participants` as performed by the
trigger: no `ON CONFLICT` clause, so a duplicate of the
`(conversation_id, user_id)` primary key raises `unique_violation`,
modelled by `none`. -/
def insertParticipant (ps : List Participant) (row : Participant) : Option (List Participant) :=
  if ps.any (fun p => p.conversation_id == row.conversation_id && p.user_id == row.user_id)
  then none
  else some (ps ++ [row])

/-- An `INSERT INTO conversation_participants ... ON CONFLICT
(conversation_id, user_id) DO NOTHING`, as used by the backfill migration:
a duplicate key leaves the table unchanged instead of raising. -/
def insertParticipantOnConflictDoNothing (ps : List Participant) (row : Participant) :
    List Participant :=
  if ps.any (fun p => p.conversation_id == row.conversation_id && p.user_id == row.user_id)
  then ps
  else ps ++ [row]

/-- The trigger function `add_conversation_participants()`: reads the
mentor's director reference, inserts the client row, the mentor row, and,
if the director reference is non-null, the director row.  Each insert is
a plain insert; any primary-key conflict makes the whole trigger (and the
enclosing transaction) fail, yielding `none`. -/
def add_conversation_participants (db : DB) (c : Conversation) :
    Option (List Participant) :=
  match insertParticipant db.conversation_participants
      ⟨c.id, c.client_id, Role.client⟩ with
  | none => none
  | some ps1 =>
    match insertParticipant ps1 ⟨c.id, c.mentor_id, Role.mentor⟩ with
    | none => none
    | some ps2 =>
      match mentorDirector db c.mentor_id with
      | none => some ps2
      | some d => insertParticipant ps2 ⟨c.id, d, Role.training_director⟩

/-- Conversation creation as one transaction: the primary-key check on
`conversations`, the INSERT policy, the row insert, and the AFTER INSERT
trigger.  `none` means the transaction failed or was denied, so no row of
any table is persisted. -/
def createConversation (db : DB) (requester : Uuid) (c : Conversation) : Option DB :=
  if db.conversations.any (fun x => x.id == c.id) then none
  else if conversationInsertCheck db requester c.client_id c.mentor_id then
    match add_conversation_participants db c with
    | none => none
    | some ps =>
      some { db with
              conversations := db.conversations ++ [c],
              conversation_participants := ps }
  else none

/-- An `audio_messages` insert by a requester: primary-key check plus the
INSERT policy; `none` means denied or failed, nothing persisted. -/
def insertAudioMessage (db : DB) (uid : Uuid) (m : AudioMessage) : Option DB :=
  if db.audio_messages.any (fun x => x.id == m.id) then none
  else if audioMessageInsertCheck db uid m
  then some { db with audio_messages := db.audio_messages ++ [m] }
  else none

/-- An `audio_messages` delete by a requester: under RLS, only rows that
satisfy the DELETE policy's USING clause are visible to the delete, so
exactly the rows with the given id whose sender is the requester are
removed. -/
def deleteAudioMessage (db : DB) (uid : Uuid) (mid : Uuid) : DB :=
  { db with
      audio_messages :=
        db.audio_messages.filter
          (fun m => !(m.id == mid && audioMessageDeleteCheck uid m)) }

/-- A `folder_items` insert by a requester: primary-key check plus the
WITH CHECK clause of the folder-items policy; `none` means denied or
failed, nothing persisted. -/
def insertFolderItem (db : DB) (uid : Uuid) (it : FolderItem) : Option DB :=
  if db.folder_items.any
      (fun x => x.folder_id == it.folder_id && x.message_id == it.message_id) then none
  else if folderItemInsertCheck db uid it
  then some { db with folder_items := db.folder_items ++ [it] }
  else none

/-- Modelled from the spec: the ground-truth Hierarchy Resolver predicate
`isMember(principal, conversation)` of section 4.1, used only to compare
the spec's predicate with the code's materialized membership: true iff
the principal equals the conversation's client, or its mentor, or the
training director referenced by the mentor's director-reference. -/
def isMember (db : DB) (p : Uuid) (c : Conversation) : Bool :=
  p == c.client_id || p == c.mentor_id
    || (match mentorDirector db c.mentor_id with
        | some d => p == d
        | none => false)

/-- State of the stop timeout a recorder session scheduled: when it is
due to fire, the `isRecording` value the handler's `stopRecording`
closure captured at scheduling time, and whether a cleanup has cleared
it. -/
structure StopTimeout where
  fireAtMs : Nat
  capturedIsRecording : Bool
  cancelled : Bool
  deriving DecidableEq, Repr

/-- The stop timeout scheduled by `AudioRecorder.startRecording`
(src/src/components/conversations/AudioRecorder.tsx): it starts the
MediaRecorder and a one-second display timer but schedules no stop
timeout at all. -/
def audioRecorderStopTimeout : Option StopTimeout :=
  none

/-- The stop timeout as scheduled by `MessageInput.startRecording`:
`setTimeout(stopRecording, 15 * 60 * 1000)`.  The handler's
`stopRecording` is the one from the render in which the mic button was
clicked, and that button only renders while `isRecording` is false, so
the closure's captured `isRecording` is `false`; the timeout starts out
not yet cleared. -/
def messageInputInstalledTimeout : StopTimeout :=
  ⟨15 * 60 * 1000, false, false⟩

/-- The cleanup of MessageInput's effect keyed on `[isRecording]`: when
`setIsRecording(true)` commits, the previous render's cleanup runs
`clearTimeout(recordingTimeoutRef.current)`, and the ref already holds
the timeout just scheduled by `startRecording`, so that timeout is
cleared. -/
def cleanupOnRecordingStateChange (t : StopTimeout) : StopTimeout :=
  { t with cancelled := true }

/-- The stop timeout still in effect for a MessageInput session once the
`isRecording` state change has committed: the installed timeout after
the effect cleanup has run. -/
def messageInputStopTimeout : Option StopTimeout :=
  some (cleanupOnRecordingStateChange messageInputInstalledTimeout)

/-- Whether a scheduled stop timeout actually stops the recorder: a
cleared timeout never fires, and a fired handler calls the stale
`stopRecording`, whose `mediaRecorderRef.current && isRecording` guard
only reaches `mediaRecorder.stop()` when the captured `isRecording` was
true. -/
def timeoutForcesStop (t : StopTimeout) : Bool :=
  !t.cancelled && t.capturedIsRecording

/-- Capture duration of a recording session: the MediaRecorder runs
until the user stops it, unless a scheduled stop timeout actually
forces a stop earlier. -/
def captureDurationMs (t : Option StopTimeout) (userStopMs : Nat) : Nat :=
  match t with
  | none => userStopMs
  | some t => if timeoutForcesStop t then min userStopMs t.fireAtMs else userStopMs

/-! Helper lemmas about the participant inserts. -/

theorem insertParticipant_eq_some {ps qs : List Participant} {row : Participant}
    (h : insertParticipant ps row = some qs) : qs = ps ++ [row] := by
  unfold insertParticipant at h
  by_cases hc :
      (ps.any fun p => p.conversation_id == row.conversation_id && p.user_id == row.user_id) = true
  · rw [if_pos hc] at h
    exact absurd h (by simp)
  · rw [if_neg hc] at h
    exact (Option.some_inj.mp h).symm

theorem add_conversation_participants_eq_some {db : DB} {c : Conversation}
    {ps : List Participant} (h : add_conversation_participants db c = some ps) :
    ps = db.conversation_participants ++
      (⟨c.id, c.client_id, Role.client⟩ :: ⟨c.id, c.mentor_id, Role.mentor⟩ ::
        (match mentorDirector db c.mentor_id with
         | some d => [⟨c.id, d, Role.training_director⟩]
         | none => [])) := by
  unfold add_conversation_participants at h
  cases h1 : insertParticipant db.conversation_participants
      ⟨c.id, c.client_id, Role.client⟩ with
  | none => rw [h1] at h; exact absurd h (by simp)
  | some ps1 =>
    rw [h1] at h
    dsimp only at h
    cases h2 : insertParticipant ps1 ⟨c.id, c.mentor_id, Role.mentor⟩ with
    | none => rw [h2] at h; exact absurd h (by simp)
    | some ps2 =>
      rw [h2] at h
      dsimp only at h
      have e1 := insertParticipant_eq_some h1
      have e2 := insertParticipant_eq_some h2
      cases hd : mentorDirector db c.mentor_id with
      | none =>
        rw [hd] at h
        have := Option.some_inj.mp h
        subst this e1 e2
        simp
      | some d =>
        rw [hd] at h
        have e3 := insertParticipant_eq_some h
        subst e3 e1 e2
        simp

theorem createConversation_eq_some {db dbp : DB} {R : Uuid} {c : Conversation}
    (h : createConversation db R c = some dbp) :
    ∃ ps, add_conversation_participants db c = some ps ∧
      dbp = { db with
               conversations := db.conversations ++ [c],
               conversation_participants := ps } := by
  unfold createConversation at h
  by_cases h1 : (db.conversations.any fun x => x.id == c.id) = true
  · rw [if_pos h1] at h; exact absurd h (by simp)
  · rw [if_neg h1] at h
    by_cases h2 : conversationInsertCheck db R c.client_id c.mentor_id = true
    · rw [if_pos h2] at h
      cases h3 : add_conversation_participants db c with
      | none => rw [h3] at h; exact absurd h (by simp)
      | some ps =>
        rw [h3] at h
        exact ⟨ps, rfl, (Option.some_inj.mp h).symm⟩
    · rw [if_neg h2] at h; exact absurd h (by simp)

/-! C10: conversation creation with client equal to mentor. -/

/-- C10: for every conversation-creation attempt whose client-reference
equals its mentor-reference, the materializer's second membership insert
conflicts with the `(conversation_id, user_id)` primary key, the trigger
fails, and the creation fails as a whole: neither a conversation row nor
any membership row is persisted (`none` = full rollback). -/
theorem c10_self_conversation_creation_fails (db : DB) (R : Uuid) (c : Conversation)
    (h : c.client_id = c.mentor_id) :
    add_conversation_participants db c = none ∧ createConversation db R c = none := by
  have hadd : add_conversation_participants db c = none := by
    unfold add_conversation_participants
    cases h1 : insertParticipant db.conversation_participants
        ⟨c.id, c.client_id, Role.client⟩ with
    | none => rfl
    | some ps1 =>
      have e1 := insertParticipant_eq_some h1
      have hcond : (ps1.any fun p => p.conversation_id == c.id && p.user_id == c.mentor_id) = true := by
        subst e1
        simp [h]
      have h2 : insertParticipant ps1 ⟨c.id, c.mentor_id, Role.mentor⟩ = none := by
        unfold insertParticipant
        rw [if_pos hcond]
      dsimp only
      rw [h2]
  refine ⟨hadd, ?_⟩
  unfold createConversation
  rw [hadd]
  split
  · rfl
  · split
    · rfl
    · rfl

/-- Sample state for the C10 witness: one profile, no conversations. -/
def db10 : DB :=
  ⟨[⟨"u1", Role.client, some "u2", none, "User One"⟩], [], [], [], [], []⟩

/-- Sample degenerate conversation for the C10 witness: the same
principal in both positions. -/
def conv10 : Conversation := ⟨"cv", "u1", "u1"⟩

/-- Witness for C10 at a concrete state. -/
theorem c10_self_conversation_creation_fails_witness :
    add_conversation_participants db10 conv10 = none
      ∧ createConversation db10 "u1" conv10 = none :=
  c10_self_conversation_creation_fails db10 "u1" conv10 rfl

/-! C4: duplicate-key conflicts on the membership table. -/

/-- Sample state for the C4 counterexample. -/
def db4 : DB :=
  ⟨[⟨"u1", Role.mentor, none, none, "Mentor One"⟩], [], [], [], [], []⟩

/-- Sample conversation for the C4 counterexample. -/
def conv4 : Conversation := ⟨"cv", "u1", "u1"⟩

/-- C4 counterexample: during trigger-driven conversation creation a
duplicate-key conflict on `conversation_participants` is NOT silently
absorbed: the plain insert raises (`none`) and the whole creation errors
out instead of completing. -/
theorem c4_duplicate_key_not_absorbed_cex :
    insertParticipant [⟨"cv", "u1", Role.client⟩] ⟨"cv", "u1", Role.mentor⟩ = none
      ∧ createConversation db4 "u1" conv4 = none := by
  refine ⟨?_, ?_⟩ <;> decide

/-- C4 (amended): a duplicate-key conflict on the membership table is
silently absorbed (table left unchanged, no error) only by the
`ON CONFLICT DO NOTHING` insert used by the backfill migration; the plain
insert used by the creation trigger raises on the same conflict. -/
theorem c4_conflict_absorption (ps : List Participant) (row : Participant)
    (h : (ps.any fun p =>
        p.conversation_id == row.conversation_id && p.user_id == row.user_id) = true) :
    insertParticipantOnConflictDoNothing ps row = ps ∧ insertParticipant ps row = none := by
  unfold insertParticipantOnConflictDoNothing insertParticipant
  rw [if_pos h, if_pos h]
  exact ⟨rfl, rfl⟩

/-- Witness for the amended C4 at a concrete conflicting row. -/
theorem c4_conflict_absorption_witness :
    insertParticipantOnConflictDoNothing
        [⟨"cv", "u2", Role.client⟩] ⟨"cv", "u2", Role.training_director⟩
        = [⟨"cv", "u2", Role.client⟩]
      ∧ insertParticipant [⟨"cv", "u2", Role.client⟩] ⟨"cv", "u2", Role.training_director⟩
        = none :=
  c4_conflict_absorption _ _ (by decide)

/-! C9: maximum capture duration of the client-side recorders. -/

/-- C9: the claimed client-enforced 15-minute forced stop is not
delivered by the code.  `AudioRecorder.startRecording` schedules no stop
timeout at all; `MessageInput.startRecording` schedules one, but the
effect cleanup keyed on `[isRecording]` clears it when the recording
state change commits, and even an uncleared firing would no-op because
the handler's stale `stopRecording` closure captured
`isRecording = false`.  So a session the user stops only after
16 minutes captures the full 16 minutes in either component, exceeding
the claimed 15-minute maximum. -/
theorem c9_recorder_cap_not_enforced :
    captureDurationMs audioRecorderStopTimeout (16 * 60 * 1000) = 16 * 60 * 1000
      ∧ captureDurationMs messageInputStopTimeout (16 * 60 * 1000) = 16 * 60 * 1000
      ∧ (cleanupOnRecordingStateChange messageInputInstalledTimeout).cancelled = true
      ∧ timeoutForcesStop messageInputInstalledTimeout = false
      ∧ 15 * 60 * 1000 < 16 * 60 * 1000 := by
  refine ⟨rfl, rfl, rfl, rfl, ?_⟩
  norm_num

/-! C8: the role-matching invariant on conversations. -/

/-- Sample state for the C8 counterexample: a mentor and a training
director, no client anywhere. -/
def db8 : DB :=
  ⟨[⟨"u1", Role.mentor, none, none, "Mentor One"⟩,
    ⟨"u2", Role.training_director, none, none, "Director Two"⟩],
   [], [], [], [], []⟩

/-- Sample conversation for the C8 counterexample: its client-reference
points at a training director. -/
def conv8 : Conversation := ⟨"cv", "u2", "u1"⟩

/-- C8 counterexample: requester "u1" (the mentor-reference) is permitted
to insert a conversation whose client-reference resolves to a profile of
role training_director, and the conversation row is persisted: the
role-matching invariant is not enforced by any constraint or policy. -/
theorem c8_role_mismatch_persisted_cex :
    (createConversation db8 "u1" conv8).map DB.conversations = some [conv8]
      ∧ (lookupProfile db8 conv8.client_id).map Profile.role = some Role.training_director
      ∧ Role.training_director ≠ Role.client := by
  refine ⟨?_, ?_, ?_⟩ <;> decide

/-- C8 (amended): the conversation INSERT policy permits an insert
exactly when the requester equals the client-reference, or equals the
mentor-reference, or is the mentor recorded on the client-reference's
profile; it imposes no role condition on the referenced profiles, so
conversations whose references resolve to non-matching roles can be
persisted by a permitted requester. -/
theorem c8_insert_check_ignores_roles (db : DB) (R clientId mentorId : Uuid) :
    conversationInsertCheck db R clientId mentorId = true ↔
      (clientId = R ∨ mentorId = R
        ∨ ∃ p ∈ db.profiles, p.id = clientId ∧ p.mentor_id = some R) := by
  unfold conversationInsertCheck
  simp [List.any_eq_true, beq_iff_eq]

/-! C1 and C2: membership materialization at conversation creation. -/

/-- C1: for every conversation created while the trigger is installed,
immediately after creation the materialized membership rows for it are
exactly the client-role row, the mentor-role row, and — iff the mentor's
director-reference is non-null at that instant — one training_director
row for that director, and no other rows. -/
theorem c1_materialized_membership (db dbp : DB) (R : Uuid) (c : Conversation)
    (hc : createConversation db R c = some dbp)
    (hfresh : ∀ p ∈ db.conversation_participants, p.conversation_id ≠ c.id) :
    dbp.conversation_participants.filter (fun p => p.conversation_id == c.id) =
      ⟨c.id, c.client_id, Role.client⟩ :: ⟨c.id, c.mentor_id, Role.mentor⟩ ::
        (match mentorDirector db c.mentor_id with
         | some d => [⟨c.id, d, Role.training_director⟩]
         | none => []) := by
  obtain ⟨ps, hadd, hdbp⟩ := createConversation_eq_some hc
  subst hdbp
  have e := add_conversation_participants_eq_some hadd
  subst e
  dsimp only
  rw [List.filter_append]
  have h1 : db.conversation_participants.filter (fun p => p.conversation_id == c.id) = [] := by
    rw [List.filter_eq_nil_iff]
    intro a ha
    simp only [beq_iff_eq]
    exact hfresh a ha
  rw [h1]
  cases hd : mentorDirector db c.mentor_id <;> simp [hd]

/-- Sample state for the C1 and C2 witnesses: a client, a mentor with a
director, and the director. -/
def db1 : DB :=
  ⟨[⟨"cl", Role.client, some "me", none, "Client One"⟩,
    ⟨"me", Role.mentor, none, some "di", "Mentor One"⟩,
    ⟨"di", Role.training_director, none, none, "Director One"⟩],
   [], [], [], [], []⟩

/-- Sample conversation for the C1 and C2 witnesses. -/
def conv1 : Conversation := ⟨"cv", "cl", "me"⟩

/-- The state produced by creating `conv1` in `db1`. -/
def db1post : DB :=
  ⟨db1.profiles, [conv1],
   [⟨"cv", "cl", Role.client⟩, ⟨"cv", "me", Role.mentor⟩,
    ⟨"cv", "di", Role.training_director⟩],
   [], [], []⟩

/-- Witness for C1 at a concrete creation. -/
theorem c1_materialized_membership_witness :
    createConversation db1 "cl" conv1 = some db1post
      ∧ db1post.conversation_participants.filter (fun p => p.conversation_id == "cv") =
          [⟨"cv", "cl", Role.client⟩, ⟨"cv", "me", Role.mentor⟩,
           ⟨"cv", "di", Role.training_director⟩] :=
  ⟨by decide,
   c1_materialized_membership db1 db1post "cl" conv1 (by decide) (by simp [db1])⟩

/-- C2: for every principal and every conversation, at the moment of the
conversation's creation the ground-truth hierarchy predicate `isMember`
holds iff the principal has a materialized membership row for it. -/
theorem c2_resolver_matches_materialization (db dbp : DB) (R : Uuid) (c : Conversation)
    (P : Uuid) (hc : createConversation db R c = some dbp)
    (hfresh : ∀ p ∈ db.conversation_participants, p.conversation_id ≠ c.id) :
    (isMember db P c = true ↔ is_conversation_member dbp P c.id = true) := by
  obtain ⟨ps, hadd, hdbp⟩ := createConversation_eq_some hc
  subst hdbp
  have e := add_conversation_participants_eq_some hadd
  subst e
  dsimp only [is_conversation_member]
  rw [List.any_append]
  have hold : (db.conversation_participants.any
      fun p => p.conversation_id == c.id && p.user_id == P) = false := by
    rw [List.any_eq_false]
    intro a ha
    simp only [Bool.and_eq_true, beq_iff_eq, not_and]
    intro hac
    exact absurd hac (hfresh a ha)
  rw [hold]
  cases hd : mentorDirector db c.mentor_id <;>
    simp [isMember, hd, beq_iff_eq] <;>
    aesop

/-- Witness for C2 at a concrete creation: the mentor's director. -/
theorem c2_resolver_matches_materialization_witness :
    isMember db1 "di" conv1 = true ↔ is_conversation_member db1post "di" "cv" = true :=
  c2_resolver_matches_materialization db1 db1post "cl" conv1 "di" (by decide) (by simp [db1])

/-! C3: read gating for non-members. -/

/-- C3: a requester may read a conversation row iff a
`conversation_participants` row links them to it; and a requester with no
membership row for a conversation is denied reading that conversation,
every audio message whose conversation-reference is that conversation,
and every stored object whose path is prefixed by that conversation's
identifier. -/
theorem c3_nonmember_read_denied (db : DB) (R cid : Uuid) :
    (conversationSelectCheck db R cid = true ↔
        ∃ p ∈ db.conversation_participants, p.conversation_id = cid ∧ p.user_id = R)
      ∧ ((¬ ∃ p ∈ db.conversation_participants, p.conversation_id = cid ∧ p.user_id = R) →
          conversationSelectCheck db R cid = false
            ∧ (∀ m ∈ db.audio_messages, m.conversation_id = cid →
                audioMessageSelectCheck db R m = false)
            ∧ (∀ obj : StorageObject, obj.name.head? = some cid →
                storageObjectSelectCheck db R obj = false)) := by
  have hiff : conversationSelectCheck db R cid = true ↔
      ∃ p ∈ db.conversation_participants, p.conversation_id = cid ∧ p.user_id = R := by
    unfold conversationSelectCheck
    simp [List.any_eq_true, beq_iff_eq]
  refine ⟨hiff, ?_⟩
  intro h
  have hmem : is_conversation_member db R cid = false := by
    cases hb : is_conversation_member db R cid with
    | false => rfl
    | true => exact absurd (hiff.mp hb) h
  refine ⟨?_, ?_, ?_⟩
  · exact hmem
  · intro m _ hmc
    unfold audioMessageSelectCheck
    rw [hmc]
    exact hmem
  · intro obj hobj
    unfold storageObjectSelectCheck storageFoldername
    cases hn : obj.name with
    | nil => rw [hn] at hobj; exact absurd hobj (by simp)
    | cons a tl =>
      rw [hn] at hobj
      have ha : a = cid := by simpa using hobj
      subst ha
      cases tl with
      | nil => simp
      | cons b tl2 => simp [hmem]

/-- Sample state for the C3 witness: a conversation, a member "a", and
one message; the requester "x" has no membership row. -/
def db3 : DB :=
  ⟨[], [⟨"cv", "a", "b"⟩], [⟨"cv", "a", Role.client⟩],
   [⟨"m1", "cv", "a", "cv/m1.mp3", 10, none⟩], [], []⟩

/-- Witness for C3 at a concrete non-member requester. -/
theorem c3_nonmember_read_denied_witness :
    (¬ ∃ p ∈ db3.conversation_participants, p.conversation_id = "cv" ∧ p.user_id = "x")
      ∧ (conversationSelectCheck db3 "x" "cv" = false
          ∧ (∀ m ∈ db3.audio_messages, m.conversation_id = "cv" →
              audioMessageSelectCheck db3 "x" m = false)
          ∧ (∀ obj : StorageObject, obj.name.head? = some "cv" →
              storageObjectSelectCheck db3 "x" obj = false)) :=
  ⟨by decide, (c3_nonmember_read_denied db3 "x" "cv").2 (by decide)⟩

/-! C5: the audio-message insert policy. -/

/-- C5: an audio-message insert by a requester into a conversation is
permitted iff the requester has a membership row for that conversation
and the message's sender-reference equals the requester; an insert by a
non-member is denied and no message row is persisted. -/
theorem c5_message_insert_policy (db : DB) (R : Uuid) (m : AudioMessage)
    (hfresh : ∀ x ∈ db.audio_messages, x.id ≠ m.id) :
    ((insertAudioMessage db R m).isSome = true ↔
        (is_conversation_member db R m.conversation_id = true ∧ m.sender_id = R))
      ∧ (is_conversation_member db R m.conversation_id = false →
          insertAudioMessage db R m = none) := by
  have hpk : (db.audio_messages.any fun x => x.id == m.id) = false := by
    rw [List.any_eq_false]
    intro x hx
    simp only [beq_iff_eq]
    exact hfresh x hx
  have hsome : (insertAudioMessage db R m).isSome = audioMessageInsertCheck db R m := by
    unfold insertAudioMessage
    rw [if_neg (by simp [hpk])]
    cases hch : audioMessageInsertCheck db R m with
    | false => simp
    | true => simp
  constructor
  · rw [hsome]
    unfold audioMessageInsertCheck
    simp [beq_iff_eq]
  · intro hmem
    unfold insertAudioMessage
    rw [if_neg (by simp [hpk])]
    rw [if_neg (by unfold audioMessageInsertCheck; rw [hmem]; simp)]

/-- Sample state for the C5 witness: one membership row for "a". -/
def db5 : DB :=
  ⟨[], [⟨"cv", "a", "b"⟩], [⟨"cv", "a", Role.client⟩], [], [], []⟩

/-- Sample message for the C5 witness. -/
def msg5 : AudioMessage := ⟨"m1", "cv", "a", "cv/m1.mp3", 5, none⟩

/-- Witness for C5 at a concrete state. -/
theorem c5_message_insert_policy_witness :
    (((insertAudioMessage db5 "a" msg5).isSome = true) ↔
        (is_conversation_member db5 "a" msg5.conversation_id = true ∧ msg5.sender_id = "a"))
      ∧ (is_conversation_member db5 "a" msg5.conversation_id = false →
          insertAudioMessage db5 "a" msg5 = none) :=
  c5_message_insert_policy db5 "a" msg5 (fun x hx => absurd hx (List.not_mem_nil x))

/-! C6: only the sender may delete an audio message. -/

/-- C6: deletion of an audio message by a principal is permitted iff the
principal equals the message's sender-reference; for any other principal
(a conversation member such as a training director included) the delete
leaves the message in place. -/
theorem c6_delete_sender_only (db : DB) (P : Uuid) (m : AudioMessage)
    (hm : m ∈ db.audio_messages) :
    (audioMessageDeleteCheck P m = true ↔ P = m.sender_id)
      ∧ (P ≠ m.sender_id → m ∈ (deleteAudioMessage db P m.id).audio_messages)
      ∧ m ∉ (deleteAudioMessage db m.sender_id m.id).audio_messages := by
  refine ⟨?_, ?_, ?_⟩
  · unfold audioMessageDeleteCheck
    rw [beq_iff_eq]
    exact eq_comm
  · intro hne
    unfold deleteAudioMessage
    dsimp only
    rw [List.mem_filter]
    refine ⟨hm, ?_⟩
    have : (m.sender_id == P) = false := by
      simp only [beq_eq_false_iff_ne, ne_eq]
      exact fun hs => hne hs.symm
    simp [audioMessageDeleteCheck, this]
  · unfold deleteAudioMessage
    dsimp only
    rw [List.mem_filter]
    simp [audioMessageDeleteCheck]

/-- Sample state for the C6 witness: one message sent by "a"; "d" is a
training-director member of the same conversation. -/
def db6 : DB :=
  ⟨[], [⟨"cv", "a", "b"⟩],
   [⟨"cv", "a", Role.client⟩, ⟨"cv", "d", Role.training_director⟩],
   [⟨"m1", "cv", "a", "cv/m1.mp3", 5, none⟩], [], []⟩

/-- Sample message for the C6 witness. -/
def msg6 : AudioMessage := ⟨"m1", "cv", "a", "cv/m1.mp3", 5, none⟩

/-- Witness for C6 at a concrete state: the director-member "d" cannot
delete the client's message, the sender can. -/
theorem c6_delete_sender_only_witness :
    (audioMessageDeleteCheck "d" msg6 = true ↔ "d" = msg6.sender_id)
      ∧ ("d" ≠ msg6.sender_id → msg6 ∈ (deleteAudioMessage db6 "d" msg6.id).audio_messages)
      ∧ msg6 ∉ (deleteAudioMessage db6 msg6.sender_id msg6.id).audio_messages :=
  c6_delete_sender_only db6 "d" msg6 (by decide)

/-! C7: the folder-item insert policy. -/

/-- C7: a folder-item insert by a requester succeeds iff both the
referenced folder's owner-reference equals the requester and the
requester has a membership row for the conversation of the referenced
message; if either condition alone fails, the insert is denied. -/
theorem c7_folder_item_insert (db : DB) (R : Uuid) (it : FolderItem)
    (f : Folder) (m : AudioMessage)
    (hf : f ∈ db.folders) (hfid : f.id = it.folder_id)
    (hfuniq : ∀ g ∈ db.folders, g.id = it.folder_id → g = f)
    (hm : m ∈ db.audio_messages) (hmid : m.id = it.message_id)
    (hmuniq : ∀ x ∈ db.audio_messages, x.id = it.message_id → x = m)
    (hfresh : ∀ x ∈ db.folder_items,
        ¬(x.folder_id = it.folder_id ∧ x.message_id = it.message_id)) :
    ((insertFolderItem db R it).isSome = true ↔
        (f.owner_id = R ∧ is_conversation_member db R m.conversation_id = true))
      ∧ (f.owner_id ≠ R → insertFolderItem db R it = none)
      ∧ (is_conversation_member db R m.conversation_id = false →
          insertFolderItem db R it = none) := by
  have hcheck : folderItemInsertCheck db R it = true ↔
      (f.owner_id = R ∧ is_conversation_member db R m.conversation_id = true) := by
    unfold folderItemInsertCheck
    simp only [Bool.and_eq_true, List.any_eq_true, beq_iff_eq]
    constructor
    · rintro ⟨⟨g, hg, hgid, hgown⟩, x, hx, hxid, hxmem⟩
      have hgf := hfuniq g hg hgid
      have hxm := hmuniq x hx hxid
      subst hgf hxm
      exact ⟨hgown, hxmem⟩
    · rintro ⟨hown, hmem⟩
      exact ⟨⟨f, hf, hfid, hown⟩, m, hm, hmid, hmem⟩
  have hpk : (db.folder_items.any
      fun x => x.folder_id == it.folder_id && x.message_id == it.message_id) = false := by
    rw [List.any_eq_false]
    intro x hx
    simp only [Bool.and_eq_true, beq_iff_eq, not_and]
    intro h1 h2
    exact hfresh x hx ⟨h1, h2⟩
  have hsome : (insertFolderItem db R it).isSome = folderItemInsertCheck db R it := by
    unfold insertFolderItem
    rw [if_neg (by simp [hpk])]
    cases hch : folderItemInsertCheck db R it with
    | false => simp
    | true => simp
  have hnone : folderItemInsertCheck db R it = false → insertFolderItem db R it = none := by
    intro hch
    unfold insertFolderItem
    rw [if_neg (by simp [hpk]), if_neg (by simp [hch])]
  refine ⟨by rw [hsome]; exact hcheck, ?_, ?_⟩
  · intro hne
    refine hnone ?_
    cases hch : folderItemInsertCheck db R it with
    | false => rfl
    | true => exact absurd (hcheck.mp hch).1 hne
  · intro hmem
    refine hnone ?_
    cases hch : folderItemInsertCheck db R it with
    | false => rfl
    | true => exact absurd (hcheck.mp hch).2 (by simp [hmem])

/-- Sample state for the C7 witness: a folder owned by "a", a message in
a conversation "a" belongs to. -/
def db7 : DB :=
  ⟨[], [⟨"cv", "a", "b"⟩], [⟨"cv", "a", Role.client⟩],
   [⟨"m1", "cv", "b", "cv/m1.mp3", 5, none⟩], [⟨"f1", "a", "Favorites"⟩], []⟩

/-- Sample folder for the C7 witness. -/
def folder7 : Folder := ⟨"f1", "a", "Favorites"⟩

/-- Sample message for the C7 witness. -/
def msg7 : AudioMessage := ⟨"m1", "cv", "b", "cv/m1.mp3", 5, none⟩

/-- Sample folder item for the C7 witness. -/
def item7 : FolderItem := ⟨"f1", "m1"⟩

/-- Witness for C7 at a concrete state. -/
theorem c7_folder_item_insert_witness :
    (((insertFolderItem db7 "a" item7).isSome = true) ↔
        (folder7.owner_id = "a" ∧ is_conversation_member db7 "a" msg7.conversation_id = true))
      ∧ (folder7.owner_id ≠ "a" → insertFolderItem db7 "a" item7 = none)
      ∧ (is_conversation_member db7 "a" msg7.conversation_id = false →
          insertFolderItem db7 "a" item7 = none) :=
  c7_folder_item_insert db7 "a" item7 folder7 msg7 (by decide) rfl (by decide)
    (by decide) rfl (by decide) (by simp [db7])
